import Mathlib

/-
Verification of the alert-event DAO (internal/prometheus/dao/alert/event_dao.go)
against its design specification.

The Go DAO operates on a relational table of MonitorAlertEvent rows through
gorm.  We embed the store as a list of rows plus a failure flag that models a
storage-layer outage (connectivity failure): when the flag is set, every query
or update the DAO issues returns a storage error, which is exactly how gorm
surfaces a broken connection to this code.  Each DAO method becomes a Lean
function on that store; methods additionally report how many storage accesses
they performed, so that fail-fast validation ("no storage access before
validation") is a provable statement rather than a comment.
-/

namespace CloudOpsAlert

/-- Alert event record, the row type of the monitor_alert_events table.
The field list is taken from the columns event_dao.go reads and writes
(UpdateAlertEvent lists the nine data columns explicitly; id, created_at,
updated_at and deleted_at are the bookkeeping columns every query uses).
The Go model struct itself is not part of the DAO file; its field set is
fixed by the column map in UpdateAlertEvent together with the data model
section of the design document. -/
structure MonitorAlertEvent where
  id : Int
  alertName : String
  fingerprint : String
  status : String
  ruleId : Int
  sendGroupId : Int
  eventTimes : Int
  silenceId : Int
  renLingUserId : Int
  labels : String
  createdAt : Int
  updatedAt : Int
  deletedAt : Int
  deriving Repr, DecidableEq

/-- The persistent store behind gorm: the table rows, plus a flag modelling a
storage-layer failure (when set, every issued query or update returns an
error, as gorm does on a broken connection). -/
structure DB where
  rows : List MonitorAlertEvent
  failing : Bool
  deriving Repr, DecidableEq

/-- Error kinds of the DAO, one constructor per distinct error the Go code
can return (validation messages, gorm record-not-found mapped to a
not-found message, rows-affected-zero mapped to a not-found-or-deleted
message, an underlying storage error, and the dispatcher errors). -/
inductive AlertError where
  | invalidId (id : Int)
  | emptyName
  | negativeOffset
  | nonPositiveLimit
  | notFound (id : Int)
  | notFoundOrDeleted (id : Int)
  | storage
  | emptyUrl
  | emptyMessage
  | transport
  deriving Repr, DecidableEq

/-- Classification of the error kinds the design calls ValidationError:
malformed input, rejected before any storage or network access. -/
def AlertError.isValidation : AlertError → Bool
  | .invalidId _ => true
  | .emptyName => true
  | .negativeOffset => true
  | .nonPositiveLimit => true
  | .emptyUrl => true
  | .emptyMessage => true
  | _ => false

/-- Row predicate of the shared WHERE clause: matches the given id and is not
soft-deleted (deleted_at = 0). -/
def liveWithId (id : Int) (r : MonitorAlertEvent) : Bool :=
  r.id == id && r.deletedAt == 0

/-- GetMonitorAlertEventById: reject a non-positive id, then issue
First with the deleted_at = 0 filter; a gorm record-not-found becomes the
not-found error, any other query error is returned as a storage error.
The second component counts storage accesses. -/
def getMonitorAlertEventById (db : DB) (id : Int) :
    Except AlertError MonitorAlertEvent × Nat :=
  if id ≤ 0 then (.error (.invalidId id), 0)
  else if db.failing then (.error .storage, 1)
  else
    match db.rows.find? (liveWithId id) with
    | none => (.error (.notFound id), 1)
    | some r => (.ok r, 1)

/-- GetAlertEventByID: same body as GetMonitorAlertEventById in the source,
kept as a separate function exactly as the Go file keeps two methods. -/
def getAlertEventByID (db : DB) (id : Int) :
    Except AlertError MonitorAlertEvent × Nat :=
  if id ≤ 0 then (.error (.invalidId id), 0)
  else if db.failing then (.error .storage, 1)
  else
    match db.rows.find? (liveWithId id) with
    | none => (.error (.notFound id), 1)
    | some r => (.ok r, 1)

/-- Boolean list-prefix test on characters, used to model the SQL LIKE
pattern match. -/
def listPrefixOf : List Char → List Char → Bool
  | [], _ => true
  | _ :: _, [] => false
  | a :: as, b :: bs => a == b && listPrefixOf as bs

/-- Substring occurrence test on character lists. -/
def containsAux (pat : List Char) : List Char → Bool
  | [] => listPrefixOf pat []
  | c :: cs => listPrefixOf pat (c :: cs) || containsAux pat cs

/-- SQL LIKE with wildcards on both sides: pat occurs somewhere in s. -/
def strContains (s pat : String) : Bool :=
  containsAux pat.data s.data

/-- SearchMonitorAlertEventByName: reject an empty name, then select the
non-deleted rows whose alert_name contains the name as a substring
(alert_name LIKE with wildcards on both sides). -/
def searchMonitorAlertEventByName (db : DB) (name : String) :
    Except AlertError (List MonitorAlertEvent) × Nat :=
  if name = "" then (.error .emptyName, 0)
  else if db.failing then (.error .storage, 1)
  else
    (.ok (db.rows.filter (fun r => r.deletedAt == 0 && strContains r.alertName name)), 1)

/-- Insertion step of the created_at DESC ordering the list query requests. -/
def orderedInsertByCreated (a : MonitorAlertEvent) :
    List MonitorAlertEvent → List MonitorAlertEvent
  | [] => [a]
  | b :: l =>
    if b.createdAt ≤ a.createdAt then a :: b :: l
    else b :: orderedInsertByCreated a l

/-- ORDER BY created_at DESC, modelled as an insertion sort. -/
def sortByCreatedDesc : List MonitorAlertEvent → List MonitorAlertEvent
  | [] => []
  | a :: l => orderedInsertByCreated a (sortByCreatedDesc l)

/-- GetMonitorAlertEventList: reject a negative offset and a non-positive
limit, then select the non-deleted rows ordered by created_at descending,
applying OFFSET and LIMIT. -/
def getMonitorAlertEventList (db : DB) (offset limit : Int) :
    Except AlertError (List MonitorAlertEvent) × Nat :=
  if offset < 0 then (.error .negativeOffset, 0)
  else if limit ≤ 0 then (.error .nonPositiveLimit, 0)
  else if db.failing then (.error .storage, 1)
  else
    (.ok (((sortByCreatedDesc (db.rows.filter (fun r => r.deletedAt == 0))).drop
      offset.toNat).take limit.toNat), 1)

/-- Effect of a gorm Updates call with a struct argument on one matched row:
gorm writes the non-zero fields of the argument (zero means 0 for integers
and the empty string for strings), never touches the primary key or
created_at or deleted_at, and refreshes updated_at to the current time. -/
def structUpdates (r event : MonitorAlertEvent) (now : Int) : MonitorAlertEvent :=
  { r with
    alertName := if event.alertName ≠ "" then event.alertName else r.alertName
    fingerprint := if event.fingerprint ≠ "" then event.fingerprint else r.fingerprint
    status := if event.status ≠ "" then event.status else r.status
    ruleId := if event.ruleId ≠ 0 then event.ruleId else r.ruleId
    sendGroupId := if event.sendGroupId ≠ 0 then event.sendGroupId else r.sendGroupId
    eventTimes := if event.eventTimes ≠ 0 then event.eventTimes else r.eventTimes
    silenceId := if event.silenceId ≠ 0 then event.silenceId else r.silenceId
    renLingUserId := if event.renLingUserId ≠ 0 then event.renLingUserId else r.renLingUserId
    labels := if event.labels ≠ "" then event.labels else r.labels
    updatedAt := now }

/-- Result of a mutating DAO call: the returned error or success, the store
it leaves behind, and how many storage accesses it performed. -/
structure UpdateOutcome where
  result : Except AlertError Unit
  db : DB
  accesses : Nat

/-- EventAlertClaim: reject a non-positive event id, then issue one
conditional Updates keyed on id = event.id AND deleted_at = 0 with the
event struct as argument.  A query error is returned as a storage error;
zero affected rows is the not-found-or-deleted error; otherwise success.
No predicate on the current claimant appears in the WHERE clause. -/
def eventAlertClaim (db : DB) (event : MonitorAlertEvent) (now : Int) : UpdateOutcome :=
  if event.id ≤ 0 then ⟨.error (.invalidId event.id), db, 0⟩
  else if db.failing then ⟨.error .storage, db, 1⟩
  else
    let affected := db.rows.countP (liveWithId event.id)
    let rows := db.rows.map
      (fun r => if liveWithId event.id r then structUpdates r event now else r)
    if affected = 0 then ⟨.error (.notFoundOrDeleted event.id), ⟨rows, db.failing⟩, 1⟩
    else ⟨.ok (), ⟨rows, db.failing⟩, 1⟩

/-- Effect of the map-based Updates in UpdateAlertEvent on one matched row:
the nine listed columns are set unconditionally to the given values and
updated_at to the current time; id, created_at and deleted_at are not in
the map and stay unchanged. -/
def mapUpdates (r event : MonitorAlertEvent) (now : Int) : MonitorAlertEvent :=
  { r with
    alertName := event.alertName
    fingerprint := event.fingerprint
    status := event.status
    ruleId := event.ruleId
    sendGroupId := event.sendGroupId
    eventTimes := event.eventTimes
    silenceId := event.silenceId
    renLingUserId := event.renLingUserId
    labels := event.labels
    updatedAt := now }

/-- UpdateAlertEvent: reject a non-positive event id, then issue one
conditional Updates keyed on id = event.id AND deleted_at = 0 with an
explicit column map (the nine data columns plus updated_at = now).
Errors are handled exactly as in eventAlertClaim. -/
def updateAlertEvent (db : DB) (event : MonitorAlertEvent) (now : Int) : UpdateOutcome :=
  if event.id ≤ 0 then ⟨.error (.invalidId event.id), db, 0⟩
  else if db.failing then ⟨.error .storage, db, 1⟩
  else
    let affected := db.rows.countP (liveWithId event.id)
    let rows := db.rows.map
      (fun r => if liveWithId event.id r then mapUpdates r event now else r)
    if affected = 0 then ⟨.error (.notFoundOrDeleted event.id), ⟨rows, db.failing⟩, 1⟩
    else ⟨.ok (), ⟨rows, db.failing⟩, 1⟩

/-- An outbound HTTP POST request as the dispatcher issues it: target url
and JSON body. -/
structure HttpRequest where
  url : String
  body : String
  deriving Repr, DecidableEq

/-- The message body SendMessageToGroup builds by formatting the message
into the fixed feishu text-message template. -/
def feishuTextPayload (message : String) : String :=
  "\x7b\"msg_type\":\"text\",\"content\":\x7b\"text\":\"" ++ message ++ "\"\x7d\x7d"

/-- Timeout, in seconds, of the HTTP client NewAlertManagerEventDAO builds
for the dispatcher. -/
def httpClientTimeoutSeconds : Nat := 10

/-- SendMessageToGroup: reject an empty url and an empty message, then build
the feishu payload and hand it to the HTTP transport; a transport failure
is wrapped and returned as the transport error, otherwise success.  The
second component is the list of HTTP requests issued during the call.
The transport itself (pkg.PostWithJson, not part of this file) is passed
in as a function from request to response body or failure.  Modelled from
the spec: the dispatcher issues a single POST per call with no built-in
retry. -/
def sendMessageToGroup (post : HttpRequest → Except Unit String)
    (url message : String) : Except AlertError Unit × List HttpRequest :=
  if url = "" then (.error .emptyUrl, [])
  else if message = "" then (.error .emptyMessage, [])
  else
    let req : HttpRequest := ⟨url, feishuTextPayload message⟩
    match post req with
    | .error _ => (.error .transport, [req])
    | .ok _ => (.ok (), [req])

/-- Ordering relation of the list query: earlier rows were created no
earlier than later rows. -/
def createdDesc (a b : MonitorAlertEvent) : Prop := b.createdAt ≤ a.createdAt

theorem mem_orderedInsertByCreated {x a : MonitorAlertEvent} :
    ∀ {l : List MonitorAlertEvent}, x ∈ orderedInsertByCreated a l ↔ x = a ∨ x ∈ l
  | [] => by simp [orderedInsertByCreated]
  | b :: l => by
    by_cases h : b.createdAt ≤ a.createdAt
    · simp [orderedInsertByCreated, h]
    · simp only [orderedInsertByCreated, if_neg h, List.mem_cons,
        mem_orderedInsertByCreated (l := l)]
      tauto

theorem length_orderedInsertByCreated (a : MonitorAlertEvent) :
    ∀ l : List MonitorAlertEvent, (orderedInsertByCreated a l).length = l.length + 1
  | [] => rfl
  | b :: l => by
    by_cases h : b.createdAt ≤ a.createdAt <;>
      simp [orderedInsertByCreated, h, length_orderedInsertByCreated a l]

theorem length_sortByCreatedDesc :
    ∀ l : List MonitorAlertEvent, (sortByCreatedDesc l).length = l.length
  | [] => rfl
  | a :: l => by
    simp [sortByCreatedDesc, length_orderedInsertByCreated, length_sortByCreatedDesc l]

theorem mem_sortByCreatedDesc {x : MonitorAlertEvent} :
    ∀ {l : List MonitorAlertEvent}, x ∈ sortByCreatedDesc l ↔ x ∈ l
  | [] => Iff.rfl
  | a :: l => by
    simp [sortByCreatedDesc, mem_orderedInsertByCreated, mem_sortByCreatedDesc (l := l)]

theorem pairwise_orderedInsertByCreated {a : MonitorAlertEvent} :
    ∀ {l : List MonitorAlertEvent}, l.Pairwise createdDesc →
      (orderedInsertByCreated a l).Pairwise createdDesc
  | [], _ => by simp [orderedInsertByCreated, List.Pairwise]
  | b :: l, h => by
    rw [List.pairwise_cons] at h
    by_cases h1 : b.createdAt ≤ a.createdAt
    · simp only [orderedInsertByCreated, if_pos h1]
      rw [List.pairwise_cons]
      refine ⟨?_, List.pairwise_cons.mpr h⟩
      intro x hx
      rcases List.mem_cons.mp hx with rfl | hx
      · exact h1
      · exact le_trans (h.1 x hx) h1
    · simp only [orderedInsertByCreated, if_neg h1]
      rw [List.pairwise_cons]
      refine ⟨?_, pairwise_orderedInsertByCreated h.2⟩
      intro x hx
      rcases mem_orderedInsertByCreated.mp hx with rfl | hx
      · exact le_of_not_le h1
      · exact h.1 x hx

theorem pairwise_sortByCreatedDesc :
    ∀ l : List MonitorAlertEvent, (sortByCreatedDesc l).Pairwise createdDesc
  | [] => List.Pairwise.nil
  | a :: l => pairwise_orderedInsertByCreated (pairwise_sortByCreatedDesc l)

theorem map_update_id {p : MonitorAlertEvent → Bool}
    {f : MonitorAlertEvent → MonitorAlertEvent} :
    ∀ {l : List MonitorAlertEvent}, (∀ r ∈ l, p r = false) →
      l.map (fun r => if p r then f r else r) = l
  | [], _ => rfl
  | r :: l, h => by
    have hr : p r = false := h r (List.mem_cons_self r l)
    simp only [List.map_cons, hr, Bool.false_eq_true, if_false]
    rw [map_update_id (fun x hx => h x (List.mem_cons_of_mem r hx))]

/-- Sample live row used to instantiate the proved properties. -/
def sampleRow : MonitorAlertEvent :=
  ⟨1, "cpu high", "fp1", "firing", 2, 3, 4, 5, 0, "sev=crit", 50, 60, 0⟩

/-- Sample soft-deleted row (deleted_at = 7). -/
def sampleDeletedRow : MonitorAlertEvent :=
  ⟨2, "mem high", "fp2", "firing", 2, 3, 4, 5, 0, "sev=warn", 55, 60, 7⟩

/-- Sample store holding one live and one soft-deleted row. -/
def sampleDb : DB := ⟨[sampleRow, sampleDeletedRow], false⟩

/-- Sample store in the storage-failure state. -/
def sampleFailDb : DB := ⟨[sampleRow], true⟩

/-- Sample update payload targeting the live row. -/
def sampleEvent : MonitorAlertEvent :=
  ⟨1, "cpu high v2", "fp1b", "resolved", 6, 7, 8, 9, 11, "sev=low", 0, 0, 0⟩

/-- Sample payload with an invalid (non-positive) id. -/
def sampleBadEvent : MonitorAlertEvent :=
  ⟨-1, "x", "x", "firing", 1, 1, 1, 1, 1, "x", 0, 0, 0⟩

/-- C2: a non-positive id makes every lookup and update return the
validation error with zero storage accesses and the store untouched;
an empty search name, a negative offset and a non-positive limit do the
same for search and list. -/
theorem validation_fails_before_storage (db : DB) (id : Int)
    (event : MonitorAlertEvent) (off lim now : Int)
    (hid : id ≤ 0) (hev : event.id ≤ 0) :
    getMonitorAlertEventById db id = (.error (.invalidId id), 0) ∧
    getAlertEventByID db id = (.error (.invalidId id), 0) ∧
    eventAlertClaim db event now = ⟨.error (.invalidId event.id), db, 0⟩ ∧
    updateAlertEvent db event now = ⟨.error (.invalidId event.id), db, 0⟩ ∧
    searchMonitorAlertEventByName db "" = (.error .emptyName, 0) ∧
    (off < 0 → getMonitorAlertEventList db off lim = (.error .negativeOffset, 0)) ∧
    (0 ≤ off → lim ≤ 0 →
      getMonitorAlertEventList db off lim = (.error .nonPositiveLimit, 0)) := by
  refine ⟨?_, ?_, ?_, ?_, ?_, ?_, ?_⟩
  · simp [getMonitorAlertEventById, hid]
  · simp [getAlertEventByID, hid]
  · simp [eventAlertClaim, hev]
  · simp [updateAlertEvent, hev]
  · simp [searchMonitorAlertEventByName]
  · intro h
    simp [getMonitorAlertEventList, h]
  · intro h1 h2
    simp [getMonitorAlertEventList, h2, show ¬ off < 0 by omega]

/-- C2 witness: the validation theorem instantiated at id 0, a payload with
id -1, an empty name, offset -1 and limit 0 against the sample store. -/
theorem validation_fails_before_storage_witness :
    (0 : Int) ≤ 0 ∧ sampleBadEvent.id ≤ 0 ∧
    (getMonitorAlertEventById sampleDb 0 = (.error (.invalidId 0), 0) ∧
     getAlertEventByID sampleDb 0 = (.error (.invalidId 0), 0) ∧
     eventAlertClaim sampleDb sampleBadEvent 99 =
       ⟨.error (.invalidId sampleBadEvent.id), sampleDb, 0⟩ ∧
     updateAlertEvent sampleDb sampleBadEvent 99 =
       ⟨.error (.invalidId sampleBadEvent.id), sampleDb, 0⟩ ∧
     searchMonitorAlertEventByName sampleDb "" = (.error .emptyName, 0) ∧
     ((-1 : Int) < 0 →
       getMonitorAlertEventList sampleDb (-1) 0 = (.error .negativeOffset, 0)) ∧
     ((0 : Int) ≤ -1 → (0 : Int) ≤ 0 →
       getMonitorAlertEventList sampleDb (-1) 0 = (.error .nonPositiveLimit, 0))) :=
  ⟨by decide, by decide,
    validation_fails_before_storage sampleDb 0 sampleBadEvent (-1) 0 99
      (by decide) (by decide)⟩

/-- Sample update payload targeting the soft-deleted row. -/
def sampleDeletedTarget : MonitorAlertEvent :=
  ⟨2, "y", "y", "firing", 1, 1, 1, 1, 3, "y", 0, 0, 0⟩

/-- C3: a soft-deleted row (with no live row sharing its id) is invisible:
both getById functions report not-found on its id, search and list never
return it, and claim or update targeting its id affect zero rows, fail with
the not-found-or-deleted error and leave the store unchanged. -/
theorem soft_deleted_invisible (db : DB) (r event : MonitorAlertEvent)
    (name : String) (off lim now : Int)
    (hr : r ∈ db.rows) (hdel : r.deletedAt ≠ 0) (hpos : 0 < r.id)
    (huniq : ∀ x ∈ db.rows, x.id = r.id → x = r)
    (hfail : db.failing = false) (hev : event.id = r.id) :
    getMonitorAlertEventById db r.id = (.error (.notFound r.id), 1) ∧
    getAlertEventByID db r.id = (.error (.notFound r.id), 1) ∧
    (∀ l, (searchMonitorAlertEventByName db name).1 = .ok l → r ∉ l) ∧
    (∀ l, (getMonitorAlertEventList db off lim).1 = .ok l → r ∉ l) ∧
    eventAlertClaim db event now = ⟨.error (.notFoundOrDeleted event.id), db, 1⟩ ∧
    updateAlertEvent db event now = ⟨.error (.notFoundOrDeleted event.id), db, 1⟩ := by
  have hdead : ∀ x ∈ db.rows, liveWithId r.id x = false := by
    intro x hx
    cases hxc : liveWithId r.id x
    · rfl
    · exfalso
      have hp : x.id = r.id ∧ x.deletedAt = 0 := by simpa [liveWithId] using hxc
      have hxr := huniq x hx hp.1
      rw [hxr] at hp
      exact hdel hp.2
  have hnone : db.rows.find? (liveWithId r.id) = none := by
    rw [List.find?_eq_none]
    intro x hx
    simp [hdead x hx]
  have hcount : db.rows.countP (liveWithId r.id) = 0 := by
    rw [List.countP_eq_zero]
    intro x hx
    simp [hdead x hx]
  have hcount2 : db.rows.countP (liveWithId event.id) = 0 := by
    rw [hev]
    exact hcount
  refine ⟨?_, ?_, ?_, ?_, ?_, ?_⟩
  · simp [getMonitorAlertEventById, show ¬ r.id ≤ 0 by omega, hfail, hnone]
  · simp [getAlertEventByID, show ¬ r.id ≤ 0 by omega, hfail, hnone]
  · intro l hl
    by_cases hn : name = ""
    · simp [searchMonitorAlertEventByName, hn] at hl
    · simp only [searchMonitorAlertEventByName, if_neg hn, hfail, Bool.false_eq_true,
        if_false, Except.ok.injEq] at hl
      intro hmem
      rw [← hl] at hmem
      have hx := (List.mem_filter.mp hmem).2
      simp [hdel] at hx
  · intro l hl
    by_cases h1 : off < 0
    · simp [getMonitorAlertEventList, h1] at hl
    · by_cases h2 : lim ≤ 0
      · simp [getMonitorAlertEventList, h1, h2] at hl
      · simp only [getMonitorAlertEventList, if_neg h1, if_neg h2, hfail,
          Bool.false_eq_true, if_false, Except.ok.injEq] at hl
        intro hmem
        rw [← hl] at hmem
        have hx := (List.mem_filter.mp
          (mem_sortByCreatedDesc.mp
            (List.mem_of_mem_drop (List.mem_of_mem_take hmem)))).2
        simp [hdel] at hx
  · have hm : db.rows.map
        (fun x => if liveWithId event.id x then structUpdates x event now else x) =
        db.rows := by
      rw [hev]
      exact map_update_id hdead
    simp [eventAlertClaim, show ¬ event.id ≤ 0 by omega, hfail, hcount2, hm]
    rw [← hfail]
  · have hm : db.rows.map
        (fun x => if liveWithId event.id x then mapUpdates x event now else x) =
        db.rows := by
      rw [hev]
      exact map_update_id hdead
    simp [updateAlertEvent, show ¬ event.id ≤ 0 by omega, hfail, hcount2, hm]
    rw [← hfail]

/-- C3 witness: the invisibility theorem instantiated at the sample
soft-deleted row inside the sample store. -/
theorem soft_deleted_invisible_witness :
    (sampleDeletedRow ∈ sampleDb.rows ∧ sampleDeletedRow.deletedAt ≠ 0 ∧
     0 < sampleDeletedRow.id ∧
     (∀ x ∈ sampleDb.rows, x.id = sampleDeletedRow.id → x = sampleDeletedRow) ∧
     sampleDb.failing = false ∧ sampleDeletedTarget.id = sampleDeletedRow.id) ∧
    (getMonitorAlertEventById sampleDb sampleDeletedRow.id =
       (.error (.notFound sampleDeletedRow.id), 1) ∧
     getAlertEventByID sampleDb sampleDeletedRow.id =
       (.error (.notFound sampleDeletedRow.id), 1) ∧
     (∀ l, (searchMonitorAlertEventByName sampleDb "high").1 = .ok l →
       sampleDeletedRow ∉ l) ∧
     (∀ l, (getMonitorAlertEventList sampleDb 0 10).1 = .ok l →
       sampleDeletedRow ∉ l) ∧
     eventAlertClaim sampleDb sampleDeletedTarget 70 =
       ⟨.error (.notFoundOrDeleted sampleDeletedTarget.id), sampleDb, 1⟩ ∧
     updateAlertEvent sampleDb sampleDeletedTarget 70 =
       ⟨.error (.notFoundOrDeleted sampleDeletedTarget.id), sampleDb, 1⟩) :=
  ⟨⟨by decide, by decide, by decide, by decide, by decide, by decide⟩,
    soft_deleted_invisible sampleDb sampleDeletedRow sampleDeletedTarget "high" 0 10 70
      (by decide) (by decide) (by decide) (by decide) (by decide) (by decide)⟩

/-- Sample update payload whose id matches no stored row. -/
def sampleMissingTarget : MonitorAlertEvent :=
  ⟨999999, "z", "z", "firing", 1, 1, 1, 1, 3, "z", 0, 0, 0⟩

/-- C4: a conditional write that matches no live row fails with the
not-found-or-deleted error, which is a different error kind from the
storage and transport errors, and leaves the store unchanged; on a failing
store the same operations return the storage error instead. -/
theorem zero_rows_distinct_from_storage_error (db fdb : DB)
    (event : MonitorAlertEvent) (now : Int)
    (hpos : 0 < event.id)
    (hfail : db.failing = false)
    (hdead : ∀ x ∈ db.rows, liveWithId event.id x = false)
    (hfdb : fdb.failing = true) :
    updateAlertEvent db event now = ⟨.error (.notFoundOrDeleted event.id), db, 1⟩ ∧
    eventAlertClaim db event now = ⟨.error (.notFoundOrDeleted event.id), db, 1⟩ ∧
    AlertError.notFoundOrDeleted event.id ≠ AlertError.storage ∧
    AlertError.notFoundOrDeleted event.id ≠ AlertError.transport ∧
    updateAlertEvent fdb event now = ⟨.error .storage, fdb, 1⟩ ∧
    eventAlertClaim fdb event now = ⟨.error .storage, fdb, 1⟩ := by
  have hcount : db.rows.countP (liveWithId event.id) = 0 := by
    rw [List.countP_eq_zero]
    intro x hx
    simp [hdead x hx]
  refine ⟨?_, ?_, by simp, by simp, ?_, ?_⟩
  · simp [updateAlertEvent, show ¬ event.id ≤ 0 by omega, hfail, hcount,
      map_update_id hdead]
    rw [← hfail]
  · simp [eventAlertClaim, show ¬ event.id ≤ 0 by omega, hfail, hcount,
      map_update_id hdead]
    rw [← hfail]
  · simp [updateAlertEvent, show ¬ event.id ≤ 0 by omega, hfdb]
  · simp [eventAlertClaim, show ¬ event.id ≤ 0 by omega, hfdb]

/-- C4 witness: the zero-rows theorem instantiated at a target id (999999)
absent from the sample store, and at the failing sample store. -/
theorem zero_rows_distinct_from_storage_error_witness :
    (0 < sampleMissingTarget.id ∧ sampleDb.failing = false ∧
     (∀ x ∈ sampleDb.rows, liveWithId sampleMissingTarget.id x = false) ∧
     sampleFailDb.failing = true) ∧
    (updateAlertEvent sampleDb sampleMissingTarget 80 =
       ⟨.error (.notFoundOrDeleted sampleMissingTarget.id), sampleDb, 1⟩ ∧
     eventAlertClaim sampleDb sampleMissingTarget 80 =
       ⟨.error (.notFoundOrDeleted sampleMissingTarget.id), sampleDb, 1⟩ ∧
     AlertError.notFoundOrDeleted sampleMissingTarget.id ≠ AlertError.storage ∧
     AlertError.notFoundOrDeleted sampleMissingTarget.id ≠ AlertError.transport ∧
     updateAlertEvent sampleFailDb sampleMissingTarget 80 =
       ⟨.error .storage, sampleFailDb, 1⟩ ∧
     eventAlertClaim sampleFailDb sampleMissingTarget 80 =
       ⟨.error .storage, sampleFailDb, 1⟩) :=
  ⟨⟨by decide, by decide, by decide, by decide⟩,
    zero_rows_distinct_from_storage_error sampleDb sampleFailDb sampleMissingTarget 80
      (by decide) (by decide) (by decide) (by decide)⟩

theorem mem_map_update_updatedAt {f : MonitorAlertEvent → MonitorAlertEvent}
    {eid now : Int} {rows : List MonitorAlertEvent}
    (hf : ∀ y, (f y).updatedAt = now) {x : MonitorAlertEvent}
    (hx : x ∈ rows.map (fun y => if liveWithId eid y then f y else y))
    (hid : x.id = eid) (hdel : x.deletedAt = 0) : x.updatedAt = now := by
  rcases List.mem_map.mp hx with ⟨y, hy, hxy⟩
  by_cases hl : liveWithId eid y
  · rw [if_pos hl] at hxy
    rw [← hxy]
    exact hf y
  · rw [if_neg hl] at hxy
    subst hxy
    exact absurd (by simp [liveWithId, hid, hdel]) hl

theorem eventAlertClaim_ok_rows {db : DB} {event : MonitorAlertEvent} {now : Int}
    (h : (eventAlertClaim db event now).result = .ok ()) :
    (eventAlertClaim db event now).db.rows =
      db.rows.map
        (fun x => if liveWithId event.id x then structUpdates x event now else x) := by
  by_cases h1 : event.id ≤ 0
  · simp [eventAlertClaim, h1] at h
  · by_cases h2 : db.failing
    · simp [eventAlertClaim, h1, h2] at h
    · by_cases h3 : db.rows.countP (liveWithId event.id) = 0 <;>
        simp [eventAlertClaim, h1, h2, h3]

theorem updateAlertEvent_ok_rows {db : DB} {event : MonitorAlertEvent} {now : Int}
    (h : (updateAlertEvent db event now).result = .ok ()) :
    (updateAlertEvent db event now).db.rows =
      db.rows.map
        (fun x => if liveWithId event.id x then mapUpdates x event now else x) := by
  by_cases h1 : event.id ≤ 0
  · simp [updateAlertEvent, h1] at h
  · by_cases h2 : db.failing
    · simp [updateAlertEvent, h1, h2] at h
    · by_cases h3 : db.rows.countP (liveWithId event.id) = 0 <;>
        simp [updateAlertEvent, h1, h2, h3]

/-- C5: a successful claim or update sets updated_at of every live row with
the target id to the supplied current time; consequently, across two
successive successful updates at increasing times the updated_at of the
target row strictly increases. -/
theorem updated_at_refreshed_on_mutation (db : DB) (event : MonitorAlertEvent)
    (now t1 t2 : Int) :
    ((eventAlertClaim db event now).result = .ok () →
      ∀ x ∈ (eventAlertClaim db event now).db.rows,
        x.id = event.id → x.deletedAt = 0 → x.updatedAt = now) ∧
    ((updateAlertEvent db event now).result = .ok () →
      ∀ x ∈ (updateAlertEvent db event now).db.rows,
        x.id = event.id → x.deletedAt = 0 → x.updatedAt = now) ∧
    (t1 < t2 →
      (updateAlertEvent db event t1).result = .ok () →
      (updateAlertEvent (updateAlertEvent db event t1).db event t2).result = .ok () →
      ∀ x1 ∈ (updateAlertEvent db event t1).db.rows,
        x1.id = event.id → x1.deletedAt = 0 →
        ∀ x2 ∈ (updateAlertEvent (updateAlertEvent db event t1).db event t2).db.rows,
          x2.id = event.id → x2.deletedAt = 0 → x1.updatedAt < x2.updatedAt) := by
  have hclaim : (eventAlertClaim db event now).result = .ok () →
      ∀ x ∈ (eventAlertClaim db event now).db.rows,
        x.id = event.id → x.deletedAt = 0 → x.updatedAt = now := by
    intro h x hx hid hdel
    rw [eventAlertClaim_ok_rows h] at hx
    exact mem_map_update_updatedAt (f := fun y => structUpdates y event now)
      (fun y => rfl) hx hid hdel
  have hupd : ∀ (d : DB) (t : Int), (updateAlertEvent d event t).result = .ok () →
      ∀ x ∈ (updateAlertEvent d event t).db.rows,
        x.id = event.id → x.deletedAt = 0 → x.updatedAt = t := by
    intro d t h x hx hid hdel
    rw [updateAlertEvent_ok_rows h] at hx
    exact mem_map_update_updatedAt (f := fun y => mapUpdates y event t)
      (fun y => rfl) hx hid hdel
  refine ⟨hclaim, hupd db now, ?_⟩
  intro hlt h1 h2 x1 hx1 hid1 hdel1 x2 hx2 hid2 hdel2
  rw [hupd db t1 h1 x1 hx1 hid1 hdel1, hupd _ t2 h2 x2 hx2 hid2 hdel2]
  exact hlt

/-- C5 witness: the refresh theorem instantiated at the sample store and the
sample payload, with mutation times 100 and then 200. -/
theorem updated_at_refreshed_on_mutation_witness :
    ((eventAlertClaim sampleDb sampleEvent 100).result = .ok () →
      ∀ x ∈ (eventAlertClaim sampleDb sampleEvent 100).db.rows,
        x.id = sampleEvent.id → x.deletedAt = 0 → x.updatedAt = 100) ∧
    ((updateAlertEvent sampleDb sampleEvent 100).result = .ok () →
      ∀ x ∈ (updateAlertEvent sampleDb sampleEvent 100).db.rows,
        x.id = sampleEvent.id → x.deletedAt = 0 → x.updatedAt = 100) ∧
    ((100 : Int) < 200 →
      (updateAlertEvent sampleDb sampleEvent 100).result = .ok () →
      (updateAlertEvent (updateAlertEvent sampleDb sampleEvent 100).db
        sampleEvent 200).result = .ok () →
      ∀ x1 ∈ (updateAlertEvent sampleDb sampleEvent 100).db.rows,
        x1.id = sampleEvent.id → x1.deletedAt = 0 →
        ∀ x2 ∈ (updateAlertEvent (updateAlertEvent sampleDb sampleEvent 100).db
          sampleEvent 200).db.rows,
          x2.id = sampleEvent.id → x2.deletedAt = 0 →
          x1.updatedAt < x2.updatedAt) :=
  updated_at_refreshed_on_mutation sampleDb sampleEvent 100 100 200

/-- C6: with a valid offset and limit against a healthy store, the list
query succeeds with at most limit rows, all non-deleted, ordered by
created_at descending; an offset at or beyond the number of live rows
yields the empty list rather than an error. -/
theorem list_pagination_bounds (db : DB) (off lim : Int)
    (hoff : 0 ≤ off) (hlim : 0 < lim) (hfail : db.failing = false) :
    ∃ l, (getMonitorAlertEventList db off lim).1 = .ok l ∧
      l.length ≤ lim.toNat ∧
      (∀ x ∈ l, x.deletedAt = 0) ∧
      l.Pairwise createdDesc ∧
      ((db.rows.filter (fun x => x.deletedAt == 0)).length ≤ off.toNat → l = []) := by
  refine ⟨((sortByCreatedDesc (db.rows.filter (fun x => x.deletedAt == 0))).drop
    off.toNat).take lim.toNat, ?_, ?_, ?_, ?_, ?_⟩
  · simp only [getMonitorAlertEventList, if_neg (show ¬ off < 0 by omega),
      if_neg (show ¬ lim ≤ 0 by omega), hfail, Bool.false_eq_true, if_false]
  · rw [List.length_take]
    exact min_le_left _ _
  · intro x hx
    have hx2 := (List.mem_filter.mp
      (mem_sortByCreatedDesc.mp
        (List.mem_of_mem_drop (List.mem_of_mem_take hx)))).2
    simpa using hx2
  · exact ((pairwise_sortByCreatedDesc _).sublist
      (List.drop_sublist _ _)).sublist (List.take_sublist _ _)
  · intro hle
    have hdrop : (sortByCreatedDesc
        (db.rows.filter (fun x => x.deletedAt == 0))).drop off.toNat = [] := by
      apply List.drop_eq_nil_of_le
      rw [length_sortByCreatedDesc]
      exact hle
    rw [hdrop, List.take_nil]

/-- C6 witness: the pagination theorem instantiated at the sample store
with offset 0 and limit 1. -/
theorem list_pagination_bounds_witness :
    (0 : Int) ≤ 0 ∧ (0 : Int) < 1 ∧ sampleDb.failing = false ∧
    (∃ l, (getMonitorAlertEventList sampleDb 0 1).1 = .ok l ∧
      l.length ≤ (1 : Int).toNat ∧
      (∀ x ∈ l, x.deletedAt = 0) ∧
      l.Pairwise createdDesc ∧
      ((sampleDb.rows.filter (fun x => x.deletedAt == 0)).length ≤ (0 : Int).toNat →
        l = [])) :=
  ⟨by decide, by decide, by decide,
    list_pagination_bounds sampleDb 0 1 (by decide) (by decide) (by decide)⟩

/-- Sample transport that always succeeds with an opaque response body. -/
def samplePost : HttpRequest → Except Unit String := fun _ => .ok "\x7b\x7d"

/-- C7: with a non-empty url and message the dispatcher issues exactly one
POST whose body is the feishu text payload built from the message, the
client carries the 10-second timeout, and the call returns success exactly
when the transport succeeds and the wrapped transport error otherwise. -/
theorem dispatch_single_post (post : HttpRequest → Except Unit String)
    (url message : String) (hu : url ≠ "") (hm : message ≠ "") :
    (sendMessageToGroup post url message).2 = [⟨url, feishuTextPayload message⟩] ∧
    feishuTextPayload message =
      "\x7b\"msg_type\":\"text\",\"content\":\x7b\"text\":\"" ++ message ++
        "\"\x7d\x7d" ∧
    httpClientTimeoutSeconds = 10 ∧
    (∀ b, post ⟨url, feishuTextPayload message⟩ = .ok b →
      (sendMessageToGroup post url message).1 = .ok ()) ∧
    (∀ e, post ⟨url, feishuTextPayload message⟩ = .error e →
      (sendMessageToGroup post url message).1 = .error .transport) := by
  refine ⟨?_, rfl, rfl, ?_, ?_⟩
  · simp only [sendMessageToGroup, if_neg hu, if_neg hm]
    cases post ⟨url, feishuTextPayload message⟩ <;> rfl
  · intro b hb
    simp [sendMessageToGroup, hu, hm, hb]
  · intro e he
    simp [sendMessageToGroup, hu, hm, he]

/-- C7 witness: the dispatch theorem instantiated at a succeeding transport,
a concrete url and the message hello. -/
theorem dispatch_single_post_witness :
    "http://x" ≠ "" ∧ "hello" ≠ "" ∧
    ((sendMessageToGroup samplePost "http://x" "hello").2 =
       [⟨"http://x", feishuTextPayload "hello"⟩] ∧
     feishuTextPayload "hello" =
       "\x7b\"msg_type\":\"text\",\"content\":\x7b\"text\":\"" ++ "hello" ++
         "\"\x7d\x7d" ∧
     httpClientTimeoutSeconds = 10 ∧
     (∀ b, samplePost ⟨"http://x", feishuTextPayload "hello"⟩ = .ok b →
       (sendMessageToGroup samplePost "http://x" "hello").1 = .ok ()) ∧
     (∀ e, samplePost ⟨"http://x", feishuTextPayload "hello"⟩ = .error e →
       (sendMessageToGroup samplePost "http://x" "hello").1 = .error .transport)) :=
  ⟨by decide, by decide,
    dispatch_single_post samplePost "http://x" "hello" (by decide) (by decide)⟩

/-- C8: an empty url fails with the url validation error, a non-empty url
with an empty message fails with the message validation error, and in both
cases no HTTP request is issued; both errors are validation errors. -/
theorem dispatch_rejects_empty_inputs (post : HttpRequest → Except Unit String)
    (url message : String) :
    (url = "" → sendMessageToGroup post url message = (.error .emptyUrl, [])) ∧
    (url ≠ "" → message = "" →
      sendMessageToGroup post url message = (.error .emptyMessage, [])) ∧
    AlertError.emptyUrl.isValidation = true ∧
    AlertError.emptyMessage.isValidation = true := by
  refine ⟨?_, ?_, rfl, rfl⟩
  · intro h
    simp [sendMessageToGroup, h]
  · intro h1 h2
    simp [sendMessageToGroup, h1, h2]

/-- C8 witness: the empty-input theorem instantiated at an empty url with a
non-empty message, and at a non-empty url with an empty message. -/
theorem dispatch_rejects_empty_inputs_witness :
    ((("" : String) = "" →
       sendMessageToGroup samplePost "" "msg" = (.error .emptyUrl, [])) ∧
     (("" : String) ≠ "" → ("msg" : String) = "" →
       sendMessageToGroup samplePost "" "msg" = (.error .emptyMessage, [])) ∧
     AlertError.emptyUrl.isValidation = true ∧
     AlertError.emptyMessage.isValidation = true) ∧
    ((("http://x" : String) = "" →
       sendMessageToGroup samplePost "http://x" "" = (.error .emptyUrl, [])) ∧
     (("http://x" : String) ≠ "" → ("" : String) = "" →
       sendMessageToGroup samplePost "http://x" "" = (.error .emptyMessage, [])) ∧
     AlertError.emptyUrl.isValidation = true ∧
     AlertError.emptyMessage.isValidation = true) :=
  ⟨dispatch_rejects_empty_inputs samplePost "" "msg",
    dispatch_rejects_empty_inputs samplePost "http://x" ""⟩

/-- C10: a successful UpdateAlertEvent rewrites the matched live row to the
map image: the nine listed columns take the input event values (including
ren_ling_user_id, so a stale payload replaces the current claimant),
updated_at takes the supplied time, while id, created_at and deleted_at
keep the stored values. -/
theorem update_overwrites_all_columns (db : DB) (event r : MonitorAlertEvent)
    (now : Int) (hfail : db.failing = false) (hpos : 0 < event.id)
    (hr : r ∈ db.rows) (hid : r.id = event.id) (hlive : r.deletedAt = 0) :
    (updateAlertEvent db event now).result = .ok () ∧
    mapUpdates r event now ∈ (updateAlertEvent db event now).db.rows ∧
    (mapUpdates r event now).alertName = event.alertName ∧
    (mapUpdates r event now).fingerprint = event.fingerprint ∧
    (mapUpdates r event now).status = event.status ∧
    (mapUpdates r event now).ruleId = event.ruleId ∧
    (mapUpdates r event now).sendGroupId = event.sendGroupId ∧
    (mapUpdates r event now).eventTimes = event.eventTimes ∧
    (mapUpdates r event now).silenceId = event.silenceId ∧
    (mapUpdates r event now).renLingUserId = event.renLingUserId ∧
    (mapUpdates r event now).labels = event.labels ∧
    (mapUpdates r event now).updatedAt = now ∧
    (mapUpdates r event now).id = r.id ∧
    (mapUpdates r event now).createdAt = r.createdAt ∧
    (mapUpdates r event now).deletedAt = r.deletedAt := by
  have hlb : liveWithId event.id r = true := by
    simp [liveWithId, hid, hlive]
  have hcount : ¬ db.rows.countP (liveWithId event.id) = 0 := by
    intro h
    exact absurd hlb (by simpa using List.countP_eq_zero.mp h r hr)
  refine ⟨?_, ?_, rfl, rfl, rfl, rfl, rfl, rfl, rfl, rfl, rfl, rfl, rfl, rfl, rfl⟩
  · simp [updateAlertEvent, show ¬ event.id ≤ 0 by omega, hfail, hcount]
  · have hmem := List.mem_map_of_mem
      (fun x => if liveWithId event.id x then mapUpdates x event now else x) hr
    simp only [hlb, if_true] at hmem
    simpa [updateAlertEvent, show ¬ event.id ≤ 0 by omega, hfail, hcount] using hmem

/-- C10 witness: the overwrite theorem instantiated at the sample store,
sample row and sample payload. -/
theorem update_overwrites_all_columns_witness :
    (sampleDb.failing = false ∧ 0 < sampleEvent.id ∧ sampleRow ∈ sampleDb.rows ∧
     sampleRow.id = sampleEvent.id ∧ sampleRow.deletedAt = 0) ∧
    ((updateAlertEvent sampleDb sampleEvent 90).result = .ok () ∧
     mapUpdates sampleRow sampleEvent 90 ∈
       (updateAlertEvent sampleDb sampleEvent 90).db.rows ∧
     (mapUpdates sampleRow sampleEvent 90).alertName = sampleEvent.alertName ∧
     (mapUpdates sampleRow sampleEvent 90).fingerprint = sampleEvent.fingerprint ∧
     (mapUpdates sampleRow sampleEvent 90).status = sampleEvent.status ∧
     (mapUpdates sampleRow sampleEvent 90).ruleId = sampleEvent.ruleId ∧
     (mapUpdates sampleRow sampleEvent 90).sendGroupId = sampleEvent.sendGroupId ∧
     (mapUpdates sampleRow sampleEvent 90).eventTimes = sampleEvent.eventTimes ∧
     (mapUpdates sampleRow sampleEvent 90).silenceId = sampleEvent.silenceId ∧
     (mapUpdates sampleRow sampleEvent 90).renLingUserId = sampleEvent.renLingUserId ∧
     (mapUpdates sampleRow sampleEvent 90).labels = sampleEvent.labels ∧
     (mapUpdates sampleRow sampleEvent 90).updatedAt = 90 ∧
     (mapUpdates sampleRow sampleEvent 90).id = sampleRow.id ∧
     (mapUpdates sampleRow sampleEvent 90).createdAt = sampleRow.createdAt ∧
     (mapUpdates sampleRow sampleEvent 90).deletedAt = sampleRow.deletedAt) :=
  ⟨⟨by decide, by decide, by decide, by decide, by decide⟩,
    update_overwrites_all_columns sampleDb sampleEvent sampleRow 90
      (by decide) (by decide) (by decide) (by decide) (by decide)⟩

/-- Stored row already claimed by operator 2. -/
def claimedByOther : MonitorAlertEvent :=
  ⟨1, "disk full", "fp9", "firing", 2, 3, 4, 5, 2, "sev=crit", 50, 60, 0⟩

/-- Claim payload of operator 1 against the same event id. -/
def claimByA : MonitorAlertEvent :=
  ⟨1, "", "", "", 0, 0, 0, 0, 1, "", 0, 0, 0⟩

/-- Store holding only the row claimed by operator 2. -/
def claimDb : DB := ⟨[claimedByOther], false⟩

/-- C1 counterexample: the stored event is already claimed by operator 2,
yet the claim by operator 1 succeeds and overwrites the stored claimant,
instead of failing with a claim conflict and leaving the row unchanged. -/
theorem claim_no_conflict_check_counterexample :
    claimedByOther.renLingUserId = 2 ∧
    claimByA.renLingUserId = 1 ∧
    claimByA.renLingUserId ≠ claimedByOther.renLingUserId ∧
    (eventAlertClaim claimDb claimByA 100).result = .ok () ∧
    (eventAlertClaim claimDb claimByA 100).db.rows.map
      MonitorAlertEvent.renLingUserId = [1] := by
  exact ⟨rfl, rfl, by decide, rfl, rfl⟩

/-- C1 amended: a claim against an existing, non-deleted event always
succeeds, last-write-wins: the conditional write is keyed only on the id
and the soft-delete flag, so the claimant field is overwritten with the
payload operator even when a different operator already holds the event;
only a missing or soft-deleted event (or an invalid id) makes the claim
fail. -/
theorem claim_last_write_wins (db : DB) (event r : MonitorAlertEvent) (now : Int)
    (hfail : db.failing = false) (hpos : 0 < event.id)
    (hr : r ∈ db.rows) (hid : r.id = event.id) (hlive : r.deletedAt = 0)
    (hop : event.renLingUserId ≠ 0) :
    (eventAlertClaim db event now).result = .ok () ∧
    (eventAlertClaim db event now).db.rows =
      db.rows.map
        (fun x => if liveWithId event.id x then structUpdates x event now else x) ∧
    structUpdates r event now ∈ (eventAlertClaim db event now).db.rows ∧
    (structUpdates r event now).renLingUserId = event.renLingUserId ∧
    (structUpdates r event now).id = r.id ∧
    (structUpdates r event now).deletedAt = r.deletedAt := by
  have hlb : liveWithId event.id r = true := by
    simp [liveWithId, hid, hlive]
  have hcount : ¬ db.rows.countP (liveWithId event.id) = 0 := by
    intro h
    exact absurd hlb (by simpa using List.countP_eq_zero.mp h r hr)
  have hok : (eventAlertClaim db event now).result = .ok () := by
    simp [eventAlertClaim, show ¬ event.id ≤ 0 by omega, hfail, hcount]
  refine ⟨hok, eventAlertClaim_ok_rows hok, ?_, by simp [structUpdates, hop], rfl, rfl⟩
  · have hmem := List.mem_map_of_mem
      (fun x => if liveWithId event.id x then structUpdates x event now else x) hr
    simp only [hlb, if_true] at hmem
    rw [eventAlertClaim_ok_rows hok]
    exact hmem

/-- C1 amended witness: the last-write-wins theorem instantiated at the
store whose only row is claimed by operator 2 and a claim by operator 1. -/
theorem claim_last_write_wins_witness :
    (claimDb.failing = false ∧ 0 < claimByA.id ∧ claimedByOther ∈ claimDb.rows ∧
     claimedByOther.id = claimByA.id ∧ claimedByOther.deletedAt = 0 ∧
     claimByA.renLingUserId ≠ 0) ∧
    ((eventAlertClaim claimDb claimByA 100).result = .ok () ∧
     (eventAlertClaim claimDb claimByA 100).db.rows =
       claimDb.rows.map
         (fun x => if liveWithId claimByA.id x
           then structUpdates x claimByA 100 else x) ∧
     structUpdates claimedByOther claimByA 100 ∈
       (eventAlertClaim claimDb claimByA 100).db.rows ∧
     (structUpdates claimedByOther claimByA 100).renLingUserId =
       claimByA.renLingUserId ∧
     (structUpdates claimedByOther claimByA 100).id = claimedByOther.id ∧
     (structUpdates claimedByOther claimByA 100).deletedAt =
       claimedByOther.deletedAt) :=
  ⟨⟨by decide, by decide, by decide, by decide, by decide, by decide⟩,
    claim_last_write_wins claimDb claimByA claimedByOther 100
      (by decide) (by decide) (by decide) (by decide) (by decide) (by decide)⟩

/-- C9: GetMonitorAlertEventById and GetAlertEventByID are the same
function: for every store and id they return identical results. -/
theorem getById_functions_equivalent (db : DB) (id : Int) :
    getMonitorAlertEventById db id = getAlertEventByID db id := rfl

end CloudOpsAlert
